import Mathlib

/-!
Verification of the heureka-service API gateway: a shallow embedding of the
request-forwarding layer (GatewayService / GatewayController in
src/services/api-gateway/src/gateway/gateway.controller.ts) and of the access
guard (JwtAuthGuard in the shared auth module).

JavaScript runtime values that flow through the guard are modelled by `JVal`
(absent = undefined); truthiness and String() coercion follow JS semantics.
-/

deriving instance DecidableEq for Except

namespace HeurekaGateway

/-- A JavaScript-like value as it appears in a decoded JWT payload field:
`absent` models `undefined` (the field is missing), `null` the JSON null. -/
inductive JVal where
  | absent
  | null
  | str (s : String)
  | num (n : Int)
  | bool (b : Bool)
deriving DecidableEq

/-- JS truthiness: undefined, null, the empty string, 0 and false are falsy. -/
def jvTruthy : JVal → Bool
  | .absent => false
  | .null => false
  | .str s => s ≠ ""
  | .num n => n ≠ 0
  | .bool b => b

/-- JS `String(v)` coercion. -/
def jvToString : JVal → String
  | .absent => "undefined"
  | .null => "null"
  | .str s => s
  | .num n => toString n
  | .bool b => if b then "true" else "false"

/-- JS `a || b`: the left operand if truthy, otherwise the right operand. -/
def jsOr (a b : JVal) : JVal := if jvTruthy a then a else b

/-- JS strict equality with the literal `false` (`v !== false` is its negation). -/
def jvIsFalse : JVal → Bool
  | .bool b => !b
  | _ => false

/-- JS `s.startsWith(pre)`. -/
def jsStartsWith (s pre : String) : Bool := pre.toList.isPrefixOf s.toList

/-- Worker for jsSplitOnSpace: accumulates the current chunk (reversed). -/
def splitSpaceAux : List Char → List Char → List String
  | [], acc => [String.mk acc.reverse]
  | c :: t, acc =>
    if c == ' ' then String.mk acc.reverse :: splitSpaceAux t []
    else splitSpaceAux t (c :: acc)

/-- JS `s.split(' ')`: chunks between single-space separators; the empty
string splits to [""]. -/
def jsSplitOnSpace (s : String) : List String := splitSpaceAux s.toList []

/-- JS `s.toUpperCase()` (ASCII, which covers the HTTP methods involved). -/
def jsToUpper (s : String) : String := String.mk (s.toList.map Char.toUpper)

/-- The fields of the nested `user` sub-object of a decoded token payload.
Fields that the guard never reads are omitted. -/
structure UserClaims where
  id : JVal := .absent
  userId : JVal := .absent
  sub : JVal := .absent
  email : JVal := .absent
  firstName : JVal := .absent
  lastName : JVal := .absent
  phone : JVal := .absent
  isActive : JVal := .absent
  isVerified : JVal := .absent
  createdAt : JVal := .absent
  updatedAt : JVal := .absent
deriving DecidableEq

/-- A decoded token payload (the `decoded` object returned by token
verification in JwtAuthGuard.canActivate). The guard reads exactly these
fields. The registered numeric-date fields iat and exp are modelled as
optional integers (JWT NumericDate). -/
structure Claims where
  id : JVal := .absent
  sub : JVal := .absent
  userId : JVal := .absent
  email : JVal := .absent
  userEmail : JVal := .absent
  firstName : JVal := .absent
  lastName : JVal := .absent
  first_name : JVal := .absent
  last_name : JVal := .absent
  phone : JVal := .absent
  isActive : JVal := .absent
  isVerified : JVal := .absent
  createdAt : JVal := .absent
  updatedAt : JVal := .absent
  iat : Option Int := none
  exp : Option Int := none
  user : Option UserClaims := none
deriving DecidableEq

/-- JS optional chaining `decoded.user?.f`: absent when there is no nested
user object. -/
def uget (d : Claims) (f : UserClaims → JVal) : JVal :=
  match d.user with
  | none => .absent
  | some u => f u

/-- Truthiness of an optional integer claim (JS: undefined and 0 are falsy). -/
def optIntTruthy : Option Int → Bool
  | none => false
  | some n => n ≠ 0

/-- The user id candidate chain of JwtAuthGuard.canActivate (line 91):
`decoded.id || decoded.sub || decoded.userId || decoded.user?.id ||
decoded.user?.userId || decoded.user?.sub`. -/
def resolvedUserId (d : Claims) : JVal :=
  jsOr d.id (jsOr d.sub (jsOr d.userId (jsOr (uget d (fun u => u.id))
    (jsOr (uget d (fun u => u.userId)) (uget d (fun u => u.sub))))))

/-- `const userIdString = userId ? String(userId) : ''` (line 95). -/
def resolvedUserIdString (d : Claims) : String :=
  if jvTruthy (resolvedUserId d) then jvToString (resolvedUserId d) else ""

/-- The email candidate chain (line 92):
`decoded.email || decoded.user?.email || decoded.userEmail || ''`. -/
def resolvedUserEmail (d : Claims) : JVal :=
  jsOr d.email (jsOr (uget d (fun u => u.email)) (jsOr d.userEmail (JVal.str "")))

/-- The createdAt field of the AuthUser object literal (line 105):
`decoded.createdAt || decoded.user?.createdAt || decoded.iat ? new
Date(decoded.iat * 1000).toISOString() : undefined`.
By JS operator precedence this parses as
`(decoded.createdAt || decoded.user?.createdAt || decoded.iat) ? new
Date(decoded.iat * 1000).toISOString() : undefined`, so whenever the condition
is truthy the value is derived from `decoded.iat` alone; if `decoded.iat` is
absent, `decoded.iat * 1000` is NaN and `new Date(NaN).toISOString()` throws a
RangeError. The resulting ISO timestamp is represented by its epoch value in
milliseconds (`iat * 1000`), which determines it uniquely. -/
def computeCreatedAt (d : Claims) : Except String (Option Int) :=
  if jvTruthy d.createdAt || jvTruthy (uget d (fun u => u.createdAt)) || optIntTruthy d.iat then
    match d.iat with
    | some n => .ok (some (n * 1000))
    | none => .error "Invalid time value"
  else .ok none

/-- The canonical identity attached to the request (AuthUser in
src/shared/auth/auth.interface.ts, built at lines 97-107 of the guard).
createdAt is the epoch-millisecond value of the ISO timestamp (see
computeCreatedAt). -/
structure AuthUser where
  id : String
  email : JVal
  firstName : JVal
  lastName : JVal
  phone : JVal
  isActive : Bool
  isVerified : Bool
  createdAt : Option Int
  updatedAt : JVal
deriving DecidableEq

/-- The observable outcome of the guard for one request: either the request is
accepted with an identity attached, or it is rejected with an HTTP status and
an exception message. -/
inductive GuardResult where
  | accepted (user : AuthUser)
  | rejected (status : Nat) (message : String)
deriving DecidableEq

/-- Identity resolution of JwtAuthGuard.canActivate (lines 89-148), given a
successfully verified payload. Both the missing-user-id
UnauthorizedException (line 117) and the RangeError raised while building
createdAt are caught by the inner catch (line 149), whose name check matches
neither TokenExpiredError nor JsonWebTokenError, so both surface as a 401 with
message "Token validation failed". -/
def resolveIdentity (d : Claims) : GuardResult :=
  let userEmail := resolvedUserEmail d
  let userIdString := resolvedUserIdString d
  match computeCreatedAt d with
  | .error _ => .rejected 401 "Token validation failed"
  | .ok createdAt =>
    if userIdString = "" ∨ userIdString = "undefined" ∨ userIdString = "null" then
      .rejected 401 "Token validation failed"
    else
      .accepted {
        id := userIdString
        email := if jvTruthy userEmail then userEmail
                 else JVal.str ("user-" ++ userIdString ++ "@unknown")
        firstName := jsOr d.firstName (jsOr (uget d (fun u => u.firstName)) d.first_name)
        lastName := jsOr d.lastName (jsOr (uget d (fun u => u.lastName)) d.last_name)
        phone := jsOr d.phone (uget d (fun u => u.phone))
        isActive := !(jvIsFalse d.isActive) && !(jvIsFalse (uget d (fun u => u.isActive)))
        isVerified := !(jvIsFalse d.isVerified) && !(jvIsFalse (uget d (fun u => u.isVerified)))
        createdAt := createdAt
        updatedAt := jsOr d.updatedAt (uget d (fun u => u.updatedAt)) }

/-- JwtAuthGuard.extractTokenFromHeader (line 193):
`const [type, token] = request.headers.authorization?.split(' ') ?? [];
return type === 'Bearer' ? token : undefined;`. -/
def extractTokenFromHeader (authHeader : Option String) : Option String :=
  match authHeader with
  | none => none
  | some h =>
    let parts := jsSplitOnSpace h
    if parts.headD "" = "Bearer" then parts.get? 1 else none

/-- The outcome of `jwt.verify(token, secret)` from the jsonwebtoken library
(external to this repository): either a decoded payload or an error carrying
the library error name (TokenExpiredError, JsonWebTokenError, ...). -/
inductive VerifyOutcome where
  | ok (claims : Claims)
  | err (name : String)

/-- The redundant expiry double-check at line 57 of the guard:
`decoded.exp && decoded.exp < Date.now() / 1000` (nowMs is `Date.now()`). -/
def expPastCheck (d : Claims) (nowMs : Int) : Bool :=
  match d.exp with
  | some e => e ≠ 0 && e * 1000 < nowMs
  | none => false

/-- JwtAuthGuard.canActivate, with the network-free token verification
abstracted by its outcome. Rejections are UnauthorizedException (HTTP 401).
The expiry double-check throws UnauthorizedException with message
"Token expired" inside the inner try, where the inner catch re-wraps it
(its name is UnauthorizedException) into "Token validation failed". -/
def canActivate (authHeader : Option String) (verify : VerifyOutcome) (nowMs : Int) :
    GuardResult :=
  match extractTokenFromHeader authHeader with
  | none => .rejected 401 "No token provided"
  | some tok =>
    if tok = "" then .rejected 401 "No token provided"
    else
      match verify with
      | .err n =>
        if n = "TokenExpiredError" then .rejected 401 "Token expired"
        else if n = "JsonWebTokenError" then .rejected 401 "Invalid token"
        else .rejected 401 "Token validation failed"
      | .ok d =>
        if expPastCheck d nowMs then .rejected 401 "Token validation failed"
        else resolveIdentity d

/-! ### String containment (JS `String.prototype.includes`) -/

/-- Whether `pat` occurs as a contiguous run at some position of `s`. -/
def charsContains (pat : List Char) : List Char → Bool
  | [] => pat.isEmpty
  | c :: t => pat.isPrefixOf (c :: t) || charsContains pat t

/-- JS `s.includes(pat)`: substring containment. -/
def strContains (s pat : String) : Bool := charsContains pat.toList s.toList

/-! ### GatewayService configuration (constructor, lines 629-686) -/

/-- The process environment as read through ConfigService: a partial map from
variable names to string values. -/
abbrev Env := String → Option String

/-- JS truthiness of a ConfigService.get result (undefined and "" are falsy). -/
def cfgTruthy : Option String → Bool
  | none => false
  | some s => s ≠ ""

/-- JS `a || b` on optional configuration strings. -/
def jsOrCfg (a b : Option String) : Option String := if cfgTruthy a then a else b

/-- The capture group of the first match of the regex `:(\d+)` in a URL:
the maximal digit run following the first colon that is followed by at least
one digit. -/
def matchPortDigits : List Char → Option String
  | [] => none
  | c :: t =>
    if c == ':' && (match t with | d :: _ => d.isDigit | [] => false) then
      some (String.mk (t.takeWhile Char.isDigit))
    else matchPortDigits t

/-- The getServiceUrl helper of the GatewayService constructor (lines 633-661).
In development mode a Docker-style hostname (containing "-service") is
rewritten to localhost with the port extracted from the URL (or the port
variable); otherwise the URL is used if set, then a localhost URL built from
the port variable; with a service name given, a missing configuration throws. -/
def getServiceUrl (env : Env) (isDev : Bool) (envVar portEnvVar : String)
    (hasServiceName : Bool) : Except String String :=
  let url := env envVar
  let port := env portEnvVar
  let extractedPort := jsOrCfg (matchPortDigits (url.getD "").toList) port
  if cfgTruthy url ∧ isDev ∧ strContains (url.getD "") "-service" ∧ cfgTruthy extractedPort then
    .ok ("http://localhost:" ++ extractedPort.getD "")
  else if cfgTruthy url then .ok (url.getD "")
  else if cfgTruthy port then .ok ("http://localhost:" ++ port.getD "")
  else if hasServiceName then
    .error ("Missing required environment variable: " ++ envVar ++ " or " ++ portEnvVar ++
      ". Please set it in your .env file.")
  else .ok ""

/-- The auth entry of serviceUrls (lines 669-675): in development prefer an
AUTH_SERVICE_PORT tunnel, then a localhost AUTH_SERVICE_URL, then any
AUTH_SERVICE_URL; in production AUTH_SERVICE_URL is required. -/
def authServiceUrl (env : Env) (isDev : Bool) : Except String String :=
  let authMissing : Except String String :=
    .error "Missing required environment variable: AUTH_SERVICE_URL. Please set it in your .env file."
  if isDev then
    if cfgTruthy (env "AUTH_SERVICE_PORT") then
      .ok ("http://localhost:" ++ (env "AUTH_SERVICE_PORT").getD "")
    else
      match env "AUTH_SERVICE_URL" with
      | some u =>
        if jsStartsWith u "http://localhost" then .ok u
        else if u ≠ "" then .ok u
        else authMissing
      | none => authMissing
  else
    if cfgTruthy (env "AUTH_SERVICE_URL") then .ok ((env "AUTH_SERVICE_URL").getD "")
    else authMissing

/-- The serviceUrls record built by the GatewayService constructor
(lines 663-676); `importSvc` is the entry keyed "import" in the source. -/
structure ServiceUrls where
  heureka : String
  importSvc : String
  settings : String
  auth : String
deriving DecidableEq

/-- The GatewayService constructor resolution of all backend base URLs
(lines 629-676). A thrown configuration error aborts process startup. -/
def buildServiceUrls (env : Env) : Except String ServiceUrls := do
  let nodeEnv := if cfgTruthy (env "NODE_ENV") then (env "NODE_ENV").getD "" else "development"
  let isDev := nodeEnv = "development"
  let h ← getServiceUrl env isDev "HEUREKA_SERVICE_URL" "HEUREKA_SERVICE_PORT" true
  let i ← getServiceUrl env isDev "IMPORT_SERVICE_URL" "IMPORT_SERVICE_PORT" true
  let s ← getServiceUrl env isDev "SETTINGS_SERVICE_URL" "HEUREKA_SETTINGS_SERVICE_PORT" true
  let a ← authServiceUrl env isDev
  return { heureka := h, importSvc := i, settings := s, auth := a }

/-- `this.serviceUrls[serviceName]` (line 852). -/
def lookupServiceUrl (u : ServiceUrls) (name : String) : Option String :=
  if name = "heureka" then some u.heureka
  else if name = "import" then some u.importSvc
  else if name = "settings" then some u.settings
  else if name = "auth" then some u.auth
  else none

/-! ### Timeout classification (forwardRequest, lines 859-881) -/

/-- `path.includes('/publish-all') || path.includes('/import') ||
path.includes('/bulk') || path.includes('/clone')` (line 860). -/
def isBulkOperationPath (path : String) : Bool :=
  strContains path "/publish-all" || strContains path "/import" ||
  strContains path "/bulk" || strContains path "/clone"

/-- `path.includes('/publish-all') || path.includes('/clone')` (line 861). -/
def isPublishAllPath (path : String) : Bool :=
  strContains path "/publish-all" || strContains path "/clone"

/-- `path.includes('/validate/heureka') || path.includes('/validate/')`
(line 863). -/
def isValidationPath (path : String) : Bool :=
  strContains path "/validate/heureka" || strContains path "/validate/"

/-- JS `parseInt` restricted to its behaviour on decimal digit prefixes:
none models NaN. The gateway only parses millisecond counts from the
GATEWAY_TIMEOUT / HTTP_TIMEOUT variables. -/
def parseIntJS (s : String) : Option Nat :=
  let ds := s.toList.takeWhile Char.isDigit
  if ds.isEmpty then none
  else some (ds.foldl (fun acc c => acc * 10 + (c.toNat - 48)) 0)

/-- The defaultTimeout IIFE of forwardRequest (lines 864-872): read
GATEWAY_TIMEOUT, fall back to HTTP_TIMEOUT, and throw (per request) when
neither is configured. Evaluated on every forwarded call, not at startup. -/
def resolveDefaultTimeout (env : Env) : Except String (Option Nat) :=
  if cfgTruthy (env "GATEWAY_TIMEOUT") then .ok (parseIntJS ((env "GATEWAY_TIMEOUT").getD ""))
  else if cfgTruthy (env "HTTP_TIMEOUT") then .ok (parseIntJS ((env "HTTP_TIMEOUT").getD ""))
  else .error "GATEWAY_TIMEOUT or HTTP_TIMEOUT must be configured in .env file"

/-- The computed per-request timeout (line 881):
`isPublishAll ? 600000 : (isBulkOperation ? 120000 : (isValidationOperation ?
90000 : defaultTimeout))`. -/
def computeTimeout (path : String) (defaultTimeout : Option Nat) : Option Nat :=
  if isPublishAllPath path then some 600000
  else if isBulkOperationPath path then some 120000
  else if isValidationPath path then some 90000
  else defaultTimeout

/-! ### Agent (connection pool) selection (constructor lines 448-489,
forwardRequest lines 883-910) -/

/-- The four live agents created by the GatewayService constructor. -/
inductive Agent where
  | internalHttp
  | internalHttps
  | externalHttp
  | externalHttps
deriving DecidableEq

/-- Whether connection reuse (keepAlive) is enabled on an agent: true for the
internal agents (lines 448-464), false for the external agents
(lines 477-489). -/
def agentKeepAlive : Agent → Bool
  | .internalHttp => true
  | .internalHttps => true
  | .externalHttp => false
  | .externalHttps => false

/-- The httpAgent / httpsAgent pair placed on one request configuration. -/
structure AgentSelection where
  httpAgent : Option Agent
  httpsAgent : Option Agent
deriving DecidableEq

/-- `['heureka', 'import', 'settings'].includes(serviceName)` (line 887). -/
def isInternalService (serviceName : String) : Bool :=
  ["heureka", "import", "settings"].contains serviceName

/-- Agent selection of forwardRequest (lines 888, 905-910): an https URL uses
only an httpsAgent (the external one exactly for the auth backend), an http
URL uses only an httpAgent (the internal keep-alive one exactly for the
internal Docker services). -/
def selectAgents (serviceName : String) (isHttps : Bool) : AgentSelection :=
  let isExternalService := serviceName == "auth" && isHttps
  { httpAgent :=
      if isHttps then none
      else if isInternalService serviceName then some .internalHttp
      else some .externalHttp
    httpsAgent :=
      if isHttps then (if isExternalService then some .externalHttps else some .internalHttps)
      else none }

/-! ### Forwarding and outcome classification (forwardRequest, lines 844-1342;
GatewayController.routeRequest, lines 223-385) -/

/-- The `error` member of an upstream JSON body: either a bare string or
an object with code and message members. -/
inductive JErr where
  | jstr (s : String)
  | jobj (code : Option String) (message : Option String)
deriving DecidableEq

/-- A JSON response body as far as the gateway inspects it: a top-level
`message` member and a nested `error` member. Other members are carried
through opaquely and never read by the gateway, so they are not modelled. -/
structure JBody where
  message : Option String := none
  error : Option JErr := none
deriving DecidableEq

/-- `data?.error?.code`. -/
def bodyErrCode : Option JBody → Option String
  | some b =>
    match b.error with
    | some (.jobj c _) => c
    | _ => none
  | none => none

/-- `data?.error?.message`. -/
def bodyErrMessage : Option JBody → Option String
  | some b =>
    match b.error with
    | some (.jobj _ m) => m
    | _ => none
  | none => none

/-- `data?.message`. -/
def bodyMessage : Option JBody → Option String
  | some b => b.message
  | none => none

/-- A thrown JS error as routeRequest inspects it: name, message, an optional
Node error code, the optional Axios response (status and body), an optional
`status` member, and whether it is a NestJS UnauthorizedException. -/
structure JsError where
  name : String := "Error"
  message : String := ""
  code : Option String := none
  respStatus : Option Nat := none
  respData : Option JBody := none
  status : Option Nat := none
  isUnauthorizedException : Bool := false
deriving DecidableEq

/-- A transport-layer failure (connection refused, DNS, timeout, abort):
no upstream response, no status member, not an UnauthorizedException. -/
def mkTransportError (code message : String) : JsError :=
  { message := message, code := some code }

/-- JS `a || b` on optional status numbers (0 is falsy). -/
def jsOrNat (a b : Option Nat) : Option Nat :=
  if (match a with | some n => n ≠ 0 | none => false : Bool) then a else b

/-- JS `a || b` where a is an optional string member and b a default. -/
def jsOrStr (a : Option String) (b : String) : String :=
  match a with
  | some s => if s = "" then b else s
  | none => b

/-- What the gateway hands back to the client for one request: an HTTP status
and a JSON body. -/
inductive RespBody where
  | passthrough (b : JBody)
  | redirectDescriptor (status : Nat) (location : Option String)
  | errorEnvelope (code : String) (message : String)
deriving DecidableEq

/-- One HTTP response sent by GatewayController.routeRequest. The error
envelopes have the JSON shape `{success:false, error:{code, message}}` (the
auth-401 branch additionally embeds `statusCode: 401` inside the error
object, which no claim inspects). -/
structure ClientResponse where
  status : Nat
  body : RespBody
deriving DecidableEq

/-- The code of an error envelope, if the response is one. -/
def respCode (r : ClientResponse) : Option String :=
  match r.body with
  | .errorEnvelope c _ => some c
  | _ => none

/-- The error classification of GatewayController.routeRequest
(lines 285-384), applied to an error thrown by forwardRequest, in source
order: auth-backend 401 passthrough; UnauthorizedException; timeout/abort;
connection errors; upstream 409 conflict; generic gateway error. -/
def classifyRouteError (serviceName : String) (e : JsError) : ClientResponse :=
  let errorStatus := jsOrNat e.respStatus e.status
  if errorStatus = some 401 ∧ serviceName = "auth" then
    let errorDataMessage :=
      match e.respData with
      | some b => b.message
      | none => some "Invalid credentials"
    { status := 401, body := .errorEnvelope "UNAUTHORIZED" (jsOrStr errorDataMessage "Invalid credentials") }
  else if e.isUnauthorizedException then
    { status := 401
      body := .errorEnvelope "UNAUTHORIZED" (if e.message = "" then "Authentication required" else e.message) }
  else if e.code = some "ECONNABORTED" ∨ strContains e.message "timeout" = true then
    { status := 503
      body := .errorEnvelope "SERVICE_UNAVAILABLE"
        ("Unable to reach " ++ serviceName ++ " service. Please check if the service is running and accessible.") }
  else if e.code = some "ECONNREFUSED" ∨ e.code = some "ENOTFOUND" ∨ e.code = some "ETIMEDOUT" then
    { status := 503
      body := .errorEnvelope "SERVICE_UNAVAILABLE"
        ("Cannot connect to " ++ serviceName ++ " service. Please check network connectivity and service configuration.") }
  else if e.respStatus = some 409 then
    { status := 409
      body := .errorEnvelope (jsOrStr (bodyErrCode e.respData) "CONFLICT")
        (jsOrStr (bodyErrMessage e.respData) (jsOrStr (bodyMessage e.respData) "Resource already exists")) }
  else
    { status := (jsOrNat e.respStatus (jsOrNat e.status (some 500))).getD 500
      body := .errorEnvelope (jsOrStr (bodyErrCode e.respData) "GATEWAY_ERROR")
        (jsOrStr (bodyErrMessage e.respData)
          (jsOrStr (bodyMessage e.respData) (if e.message = "" then "Internal server error" else e.message))) }

/-- What the network returns for the forwarded call: either an HTTP response
(any status accepted by `validateStatus: 200 <= s < 600` resolves the Axios
promise, carrying the parsed body and the location header) or a rejection
with a JS error. -/
inductive UpstreamResult where
  | response (status : Nat) (body : JBody) (location : Option String)
  | failure (e : JsError)
deriving DecidableEq

/-- The Axios request configuration assembled by forwardRequest
(lines 894-919) together with the request body the method switch attaches
(lines 1074-1093): timeout per computeTimeout (none models NaN), redirects
never followed, all statuses below 600 accepted, agents per selectAgents,
`Connection: close` exactly for the external auth-over-https case. -/
structure ForwardConfig where
  url : String
  timeout : Option Nat
  maxRedirects : Nat
  validateLow : Nat
  validateHigh : Nat
  httpAgent : Option Agent
  httpsAgent : Option Agent
  connectionClose : Bool
  requestBody : Option JBody
deriving DecidableEq

/-- `['GET','POST','PUT','DELETE','PATCH']` per the method switch
(lines 1074-1092), on `method.toUpperCase()`. -/
def supportedMethod (m : String) : Bool :=
  ["GET", "POST", "PUT", "DELETE", "PATCH"].contains (jsToUpper m)

/-- The request-preparation phase of forwardRequest: base URL lookup
(lines 852-855, a falsy URL throws), default-timeout resolution
(lines 864-872, throws when unconfigured), timeout classification, agent
selection and configuration assembly (lines 883-919), and the method switch
(line 1092 throws for unsupported methods). Errors are thrown JS Error
objects. POST/PUT/PATCH send `body || {}`; GET/DELETE send no body. -/
def buildForwardConfig (urls : ServiceUrls) (env : Env) (serviceName path method : String)
    (body : Option JBody) : Except String ForwardConfig :=
  match lookupServiceUrl urls serviceName with
  | none => .error ("Service " ++ serviceName ++ " not configured")
  | some baseUrl =>
    if baseUrl = "" then .error ("Service " ++ serviceName ++ " not configured")
    else
      match resolveDefaultTimeout env with
      | .error m => .error m
      | .ok defaultTimeout =>
        if supportedMethod method then
          .ok { url := baseUrl ++ path
                timeout := computeTimeout path defaultTimeout
                maxRedirects := 0
                validateLow := 200
                validateHigh := 600
                httpAgent := (selectAgents serviceName (jsStartsWith (baseUrl ++ path) "https://")).httpAgent
                httpsAgent := (selectAgents serviceName (jsStartsWith (baseUrl ++ path) "https://")).httpsAgent
                connectionClose := serviceName == "auth" && jsStartsWith (baseUrl ++ path) "https://"
                requestBody :=
                  if jsToUpper method = "POST" ∨ jsToUpper method = "PUT" ∨ jsToUpper method = "PATCH" then
                    some (body.getD {})
                  else none }
        else .error ("Unsupported method: " ++ method)

/-- The observable result of one call to GatewayService.forwardRequest:
a returned payload, a returned redirect descriptor (`_isRedirect` object,
lines 1243-1250), a rethrown error (line 1340), or an error thrown during
request preparation. -/
inductive ForwardResult where
  | success (cfg : ForwardConfig) (body : JBody)
  | redirect (cfg : ForwardConfig) (status : Nat) (location : Option String)
  | thrown (cfg : ForwardConfig) (e : JsError)
  | configError (message : String)
deriving DecidableEq

/-- GatewayService.forwardRequest (lines 844-1342), with the network
interaction abstracted by its `UpstreamResult`. The followRedirects parameter
(line 850, default true) is accepted and, as in the source, never read:
`maxRedirects: 0` is set unconditionally. On a resolved response a 3xx status
returns the redirect descriptor, every other status returns `response.data`
unmodified; a rejected promise is logged and rethrown. -/
def forwardRequest (urls : ServiceUrls) (env : Env) (serviceName path method : String)
    (body : Option JBody) (followRedirects : Bool) (upstream : UpstreamResult) : ForwardResult :=
  match buildForwardConfig urls env serviceName path method body with
  | .error m => .configError m
  | .ok cfg =>
    match upstream with
    | .failure e => .thrown cfg e
    | .response s b loc =>
      if 300 ≤ s ∧ s < 400 then .redirect cfg s loc else .success cfg b

/-- GatewayController.routeRequest (lines 223-385) downstream of the guard:
a value returned by forwardRequest is sent as HTTP 200 (line 284) - including
a redirect descriptor, which only the OAuth-callback route treats specially -
and a thrown error is classified by classifyRouteError. Errors thrown during
request preparation are plain JS Error objects (default JsError fields with
the thrown message). -/
def routeRespond (serviceName : String) (fr : ForwardResult) : ClientResponse :=
  match fr with
  | .success _ b => { status := 200, body := .passthrough b }
  | .redirect _ s loc => { status := 200, body := .redirectDescriptor s loc }
  | .thrown _ e => classifyRouteError serviceName e
  | .configError m => classifyRouteError serviceName { message := m }

/-- Whether anything is logged at error severity for this forwarded call:
forwardRequest logs sharedLogger.error on every rejection it catches
(line 1337) before rethrowing, and routeRequest logs sharedLogger.error
(line 336) for every caught error that is neither handled by the auth-401
branch nor an UnauthorizedException; preparation errors reach that line.
On a resolved response (any status 200-599) only info/debug logs happen. -/
def errorSeverityLogged (fr : ForwardResult) : Bool :=
  match fr with
  | .success _ _ => false
  | .redirect _ _ _ => false
  | .thrown _ _ => true
  | .configError _ => true

/-! ### Helper lemmas -/

/-- Containment is antitone in the pattern: a string containing a pattern
also contains every prefix of that pattern. -/
theorem charsContains_of_prefix {p q : List Char} (hpq : p <+: q) :
    ∀ l : List Char, charsContains q l = true → charsContains p l = true := by
  intro l
  induction l with
  | nil =>
    intro h
    have hq : q = [] := List.isEmpty_iff.mp (by simpa [charsContains] using h)
    subst hq
    have hp : p = [] := List.prefix_nil.mp hpq
    subst hp
    rfl
  | cons c t ih =>
    intro h
    have h0 : q.isPrefixOf (c :: t) = true ∨ charsContains q t = true := by
      simpa [charsContains, Bool.or_eq_true] using h
    rcases h0 with h1 | h1
    · have h2 : p <+: c :: t := hpq.trans (List.isPrefixOf_iff_prefix.mp h1)
      have h3 : p.isPrefixOf (c :: t) = true := List.isPrefixOf_iff_prefix.mpr h2
      simp [charsContains, h3]
    · simp [charsContains, ih h1]

/-- A path containing "/validate/heureka" also contains "/validate/". -/
theorem strContains_validate_subsume (p : String)
    (h : strContains p "/validate/heureka" = true) : strContains p "/validate/" = true :=
  charsContains_of_prefix (by decide) _ h

/-- The first disjunct of isValidationPath is subsumed by the second. -/
theorem isValidationPath_eq (p : String) : isValidationPath p = strContains p "/validate/" := by
  unfold isValidationPath
  cases h : strContains p "/validate/heureka"
  · simp
  · simp [strContains_validate_subsume p h]

/-! ### Claim C2 -/

/-- C2 counterexample: the claim says a path containing `publish-all` always
gets timeout 600000, but the source matches the slash-prefixed substring
`/publish-all`; the path "/republish-all" contains `publish-all` yet gets the
configured default timeout (30000 here), not 600000. -/
theorem c2_counterexample :
    strContains "/republish-all" "publish-all" = true ∧
    computeTimeout "/republish-all" (some 30000) = some 30000 ∧
    some 30000 ≠ some 600000 := by decide

/-- C2 (amended): for every forwarded path, the computed timeout is 600000 ms
if the path contains "/publish-all" or "/clone"; otherwise 120000 ms if it
contains "/import" or "/bulk"; otherwise 90000 ms if it contains "/validate/";
otherwise the configured default timeout. For any path containing
"/publish-all" the timeout is strictly greater than the timeout for a path
containing "/bulk" but none of "/publish-all", "/clone". -/
theorem c2_amended (path : String) (d : Nat) :
    (computeTimeout path (some d) =
      if strContains path "/publish-all" = true ∨ strContains path "/clone" = true then some 600000
      else if strContains path "/import" = true ∨ strContains path "/bulk" = true then some 120000
      else if strContains path "/validate/" = true then some 90000
      else some d) ∧
    (∀ p q : String, strContains p "/publish-all" = true →
      strContains q "/bulk" = true → strContains q "/publish-all" = false →
      strContains q "/clone" = false →
      (computeTimeout q (some d)).getD 0 < (computeTimeout p (some d)).getD 0) := by
  constructor
  · unfold computeTimeout isPublishAllPath isBulkOperationPath
    rw [isValidationPath_eq]
    by_cases h1 : strContains path "/publish-all" = true <;>
    by_cases h2 : strContains path "/clone" = true <;>
    by_cases h3 : strContains path "/import" = true <;>
    by_cases h4 : strContains path "/bulk" = true <;>
    simp_all
  · intro p q hp hqb hqp hqc
    unfold computeTimeout isPublishAllPath isBulkOperationPath
    simp [hp, hqb, hqp, hqc]

/-- C2 witness: a concrete publish-all path gets a strictly longer timeout
than a concrete bulk path. -/
theorem c2_witness :
    (computeTimeout "/offers/bulk" (some 30000)).getD 0 <
      (computeTimeout "/offers/publish-all" (some 30000)).getD 0 :=
  (c2_amended "/offers/bulk" 30000).2 "/offers/publish-all" "/offers/bulk"
    (by decide) (by decide) (by decide) (by decide)

/-! ### Concrete configuration used by witnesses -/

/-- A fully configured production environment. -/
def sampleEnv : Env := fun k =>
  if k = "NODE_ENV" then some "production"
  else if k = "HEUREKA_SERVICE_URL" then some "http://heureka-service:3001"
  else if k = "IMPORT_SERVICE_URL" then some "http://import-service:3002"
  else if k = "SETTINGS_SERVICE_URL" then some "http://settings-service:3003"
  else if k = "AUTH_SERVICE_URL" then some "https://auth.example.com"
  else if k = "GATEWAY_TIMEOUT" then some "30000"
  else none

/-- The serviceUrls record the constructor builds from sampleEnv. -/
def sampleUrls : ServiceUrls :=
  { heureka := "http://heureka-service:3001"
    importSvc := "http://import-service:3002"
    settings := "http://settings-service:3003"
    auth := "https://auth.example.com" }

/-- The sample environment resolves exactly to the sample serviceUrls. -/
theorem sampleUrls_built : buildServiceUrls sampleEnv = Except.ok sampleUrls := rfl

/-! ### Claim C5 -/

/-- C5: for every forwarded call whose upstream response has a 3xx status,
the forwarder returns a Redirect outcome carrying that status and location
verbatim, never a Success outcome; for every non-3xx transport success it
returns the body passed through unmodified. -/
theorem c5_outcome_classification (urls : ServiceUrls) (env : Env)
    (serviceName path method u : String) (dt : Option Nat) (body : Option JBody)
    (fl : Bool) (s : Nat) (b : JBody) (loc : Option String)
    (h1 : lookupServiceUrl urls serviceName = some u) (h2 : ¬u = "")
    (h3 : resolveDefaultTimeout env = Except.ok dt) (h4 : supportedMethod method = true) :
    ((300 ≤ s ∧ s < 400) →
      (∃ cfg, forwardRequest urls env serviceName path method body fl (.response s b loc) =
        .redirect cfg s loc) ∧
      (∀ cfg b2, forwardRequest urls env serviceName path method body fl (.response s b loc) ≠
        .success cfg b2)) ∧
    (¬(300 ≤ s ∧ s < 400) →
      ∃ cfg, forwardRequest urls env serviceName path method body fl (.response s b loc) =
        .success cfg b) := by
  have hcfg : ∃ cfg, buildForwardConfig urls env serviceName path method body = Except.ok cfg := by
    simp [buildForwardConfig, h1, h2, h3, h4]
  obtain ⟨cfg, hcfg⟩ := hcfg
  constructor
  · intro h3xx
    constructor
    · refine ⟨cfg, ?_⟩
      simp [forwardRequest, hcfg, h3xx]
    · intro cfg2 b2
      simp [forwardRequest, hcfg, h3xx]
  · intro h3xx
    refine ⟨cfg, ?_⟩
    simp [forwardRequest, hcfg, h3xx]

/-- C5 witness: a 307 response with a Location from the heureka backend is a
Redirect outcome carrying 307 and the location, and is not a Success. -/
theorem c5_witness :
    (∃ cfg, forwardRequest sampleUrls sampleEnv "heureka" "/heureka/oauth/callback" "GET" none false
        (UpstreamResult.response 307 {} (some "https://idp.example.com/next")) =
      ForwardResult.redirect cfg 307 (some "https://idp.example.com/next")) ∧
    (∀ cfg b2, forwardRequest sampleUrls sampleEnv "heureka" "/heureka/oauth/callback" "GET" none false
        (UpstreamResult.response 307 {} (some "https://idp.example.com/next")) ≠
      ForwardResult.success cfg b2) :=
  (c5_outcome_classification sampleUrls sampleEnv "heureka" "/heureka/oauth/callback" "GET"
    "http://heureka-service:3001" (some 30000) none false 307 {} (some "https://idp.example.com/next")
    rfl (by decide) rfl (by decide)).1 (by norm_num)

/-! ### Claim C6 -/

/-- C6: for every backend name, a transport failure with error code
ECONNREFUSED, ENOTFOUND, ETIMEDOUT, ECONNABORTED, or a message containing
"timeout", yields an outcome with HTTP status 503 and error code
SERVICE_UNAVAILABLE. -/
theorem c6_transport_failure_503 (serviceName code message : String)
    (h : code = "ECONNREFUSED" ∨ code = "ENOTFOUND" ∨ code = "ETIMEDOUT" ∨
      code = "ECONNABORTED" ∨ strContains message "timeout" = true) :
    (classifyRouteError serviceName (mkTransportError code message)).status = 503 ∧
    respCode (classifyRouteError serviceName (mkTransportError code message)) =
      some "SERVICE_UNAVAILABLE" := by
  by_cases ht : strContains message "timeout" = true
  · simp [classifyRouteError, mkTransportError, jsOrNat, respCode, ht]
  · rcases h with hc | hc | hc | hc | hc
    · subst hc
      simp [classifyRouteError, mkTransportError, jsOrNat, respCode, ht]
    · subst hc
      simp [classifyRouteError, mkTransportError, jsOrNat, respCode, ht]
    · subst hc
      simp [classifyRouteError, mkTransportError, jsOrNat, respCode, ht]
    · subst hc
      simp [classifyRouteError, mkTransportError, jsOrNat, respCode, ht]
    · exact absurd hc ht

/-- C6 witness: a concrete ECONNREFUSED failure against the heureka backend
maps to 503 SERVICE_UNAVAILABLE. -/
theorem c6_witness :
    (classifyRouteError "heureka"
      (mkTransportError "ECONNREFUSED" "connect ECONNREFUSED 172.18.0.5:3001")).status = 503 ∧
    respCode (classifyRouteError "heureka"
      (mkTransportError "ECONNREFUSED" "connect ECONNREFUSED 172.18.0.5:3001")) =
      some "SERVICE_UNAVAILABLE" :=
  c6_transport_failure_503 "heureka" "ECONNREFUSED" "connect ECONNREFUSED 172.18.0.5:3001"
    (Or.inl rfl)

/-! ### Claim C9 -/

/-- C9 counterexample: the claim says every combination other than
https-to-auth uses the matching internal keep-alive pool, but a plain http
call to the auth backend selects the external (keep-alive disabled) http
agent, not the internal one. -/
theorem c9_counterexample :
    selectAgents "auth" false =
      { httpAgent := some Agent.externalHttp, httpsAgent := none } ∧
    agentKeepAlive Agent.externalHttp = false ∧
    some Agent.externalHttp ≠ some Agent.internalHttp := by decide

/-- C9 (amended): https to the auth backend uses the external encrypted agent
and http to the auth backend uses the external plain agent, both with
connection reuse disabled; any call to one of the internal backends
(heureka, import, settings) uses the matching internal keep-alive agent. -/
theorem c9_amended (serviceName : String) (hi : isInternalService serviceName = true) :
    (∀ isHttps : Bool, selectAgents serviceName isHttps =
      if isHttps then { httpAgent := none, httpsAgent := some Agent.internalHttps }
      else { httpAgent := some Agent.internalHttp, httpsAgent := none }) ∧
    selectAgents "auth" true = { httpAgent := none, httpsAgent := some Agent.externalHttps } ∧
    selectAgents "auth" false = { httpAgent := some Agent.externalHttp, httpsAgent := none } ∧
    agentKeepAlive Agent.internalHttp = true ∧ agentKeepAlive Agent.internalHttps = true ∧
    agentKeepAlive Agent.externalHttp = false ∧ agentKeepAlive Agent.externalHttps = false := by
  have hna : serviceName ≠ "auth" := by
    intro h
    subst h
    exact absurd hi (by decide)
  refine ⟨?_, by decide, by decide, rfl, rfl, rfl, rfl⟩
  intro isHttps
  cases isHttps <;> simp [selectAgents, hi, hna]

/-- C9 witness: the heureka backend gets the internal agents for both
schemes, and auth over https gets the external encrypted agent. -/
theorem c9_witness :
    selectAgents "heureka" true = { httpAgent := none, httpsAgent := some Agent.internalHttps } ∧
    selectAgents "auth" true = { httpAgent := none, httpsAgent := some Agent.externalHttps } := by
  have h := c9_amended "heureka" (by decide)
  exact ⟨h.1 true, h.2.1⟩

/-! ### Claim C10 -/

/-- C10: the forwarder executes every request with maxRedirects 0 and never
reads the followRedirects flag: the result for followRedirects true equals
the result for followRedirects false on every input. -/
theorem c10_followRedirects_independent (urls : ServiceUrls) (env : Env)
    (serviceName path method : String) (body : Option JBody) (up : UpstreamResult) :
    forwardRequest urls env serviceName path method body true up =
      forwardRequest urls env serviceName path method body false up ∧
    (∀ cfg, buildForwardConfig urls env serviceName path method body = Except.ok cfg →
      cfg.maxRedirects = 0) := by
  refine ⟨rfl, ?_⟩
  intro cfg h
  unfold buildForwardConfig at h
  repeat' split at h
  all_goals first
    | exact Except.noConfusion h
    | (cases h; rfl)

/-- C10 witness: a concrete forwarded call yields identical results for both
flag values, and its assembled configuration has maxRedirects 0. -/
theorem c10_witness :
    forwardRequest sampleUrls sampleEnv "heureka" "/heureka/feed" "GET" none true
        (UpstreamResult.response 200 {} none) =
      forwardRequest sampleUrls sampleEnv "heureka" "/heureka/feed" "GET" none false
        (UpstreamResult.response 200 {} none) ∧
    ForwardConfig.maxRedirects
      { url := "http://heureka-service:3001/heureka/feed", timeout := some 30000,
        maxRedirects := 0, validateLow := 200, validateHigh := 600,
        httpAgent := some Agent.internalHttp, httpsAgent := none,
        connectionClose := false, requestBody := none } = 0 := by
  have h := c10_followRedirects_independent sampleUrls sampleEnv "heureka" "/heureka/feed" "GET"
    none (UpstreamResult.response 200 {} none)
  exact ⟨h.1, h.2 _ rfl⟩

/-! ### Claim C3 -/

/-- The ordered id candidate list the claim describes: top-level id, sub,
userId, then user.id, user.userId, user.sub. -/
def idCandidates (d : Claims) : List JVal :=
  [d.id, d.sub, d.userId, uget d (fun u => u.id), uget d (fun u => u.userId),
   uget d (fun u => u.sub)]

/-- The first truthy value of a list (absent when none is truthy). -/
def jsFirstTruthy : List JVal → JVal
  | [] => .absent
  | v :: t => if jvTruthy v then v else jsFirstTruthy t

/-- The string form of the first truthy value (empty when none is truthy). -/
def jvFirstString (l : List JVal) : String :=
  if jvTruthy (jsFirstTruthy l) then jvToString (jsFirstTruthy l) else ""

/-- A verified payload whose top-level id is the literal string "undefined"
while its subject field holds a usable id. -/
def c3Claims : Claims :=
  { id := JVal.str "undefined", sub := JVal.str "real-id", email := JVal.str "u@example.com" }

/-- C3 counterexample: the claim says the guard rejects exactly when no
candidate yields a non-empty string with the literals "undefined"/"null"
treated as absent; here the sub candidate yields the non-empty string
"real-id" (neither literal), yet the guard rejects with 401, because the
first truthy candidate (id = "undefined") wins and is then rejected rather
than skipped. -/
theorem c3_counterexample :
    jvTruthy (Claims.sub c3Claims) = true ∧
    jvToString (Claims.sub c3Claims) = "real-id" ∧
    ¬"real-id" = "" ∧ ¬"real-id" = "undefined" ∧ ¬"real-id" = "null" ∧
    canActivate (some "Bearer tok") (.ok c3Claims) 0 =
      GuardResult.rejected 401 "Token validation failed" := by decide

/-- C3 (amended): the identity id is the first truthy candidate in the order
id, sub, userId, user.id, user.userId, user.sub (JS truthiness, so empty
strings are skipped but the literal strings "undefined"/"null" are selected);
provided the createdAt computation does not fault, the guard rejects with 401
exactly when that first truthy candidate is missing or its string form is "",
"undefined" or "null" - it does not fall through to later candidates; in
particular a token lacking all candidates is rejected even if an email is
present. -/
theorem c3_amended (d : Claims) (hdr : Option String) (tok : String) (nowMs : Int)
    (ca : Option Int)
    (htok : extractTokenFromHeader hdr = some tok) (hne : ¬tok = "")
    (hexp : expPastCheck d nowMs = false)
    (hca : computeCreatedAt d = Except.ok ca) :
    resolvedUserIdString d = jvFirstString (idCandidates d) ∧
    (if resolvedUserIdString d = "" ∨ resolvedUserIdString d = "undefined" ∨
        resolvedUserIdString d = "null"
      then canActivate hdr (.ok d) nowMs = .rejected 401 "Token validation failed"
      else ∃ u, canActivate hdr (.ok d) nowMs = .accepted u ∧ u.id = resolvedUserIdString d) ∧
    ((∀ v ∈ idCandidates d, jvTruthy v = false) →
      canActivate hdr (.ok d) nowMs = .rejected 401 "Token validation failed") := by
  have hact : canActivate hdr (.ok d) nowMs = resolveIdentity d := by
    simp [canActivate, htok, hne, hexp]
  have habs : jvTruthy JVal.absent = false := rfl
  have hchain : resolvedUserIdString d = jvFirstString (idCandidates d) := by
    by_cases h1 : jvTruthy d.id = true <;>
    by_cases h2 : jvTruthy d.sub = true <;>
    by_cases h3 : jvTruthy d.userId = true <;>
    by_cases h4 : jvTruthy (uget d (fun u => u.id)) = true <;>
    by_cases h5 : jvTruthy (uget d (fun u => u.userId)) = true <;>
    by_cases h6 : jvTruthy (uget d (fun u => u.sub)) = true <;>
    simp [resolvedUserIdString, resolvedUserId, jvFirstString, idCandidates, jsFirstTruthy,
      jsOr, habs, h1, h2, h3, h4, h5, h6]
  refine ⟨hchain, ?_, ?_⟩
  · by_cases hbad : resolvedUserIdString d = "" ∨ resolvedUserIdString d = "undefined" ∨
        resolvedUserIdString d = "null"
    · rw [if_pos hbad, hact]
      simp only [resolveIdentity, hca]
      rw [if_pos hbad]
    · rw [if_neg hbad, hact]
      simp only [resolveIdentity, hca]
      rw [if_neg hbad]
      exact ⟨_, rfl, rfl⟩
  · intro hall
    have h1 := hall d.id (by simp [idCandidates])
    have h2 := hall d.sub (by simp [idCandidates])
    have h3 := hall d.userId (by simp [idCandidates])
    have h4 := hall (uget d (fun u => u.id)) (by simp [idCandidates])
    have h5 := hall (uget d (fun u => u.userId)) (by simp [idCandidates])
    have h6 := hall (uget d (fun u => u.sub)) (by simp [idCandidates])
    have hs : resolvedUserIdString d = "" := by
      simp [resolvedUserIdString, resolvedUserId, jsOr, h1, h2, h3, h4, h5, h6]
    rw [hact]
    simp only [resolveIdentity, hca]
    rw [if_pos (Or.inl hs)]

/-- A verified payload with only a top-level id. -/
def c3GoodClaims : Claims := { id := JVal.str "u1" }

/-- C3 witness: the amended statement evaluated at a concrete payload whose
only candidate is a top-level id "u1"; the guard accepts with that id. -/
theorem c3_witness :
    resolvedUserIdString c3GoodClaims = jvFirstString (idCandidates c3GoodClaims) ∧
    (if resolvedUserIdString c3GoodClaims = "" ∨ resolvedUserIdString c3GoodClaims = "undefined" ∨
        resolvedUserIdString c3GoodClaims = "null"
      then canActivate (some "Bearer t") (.ok c3GoodClaims) 0 =
        .rejected 401 "Token validation failed"
      else ∃ u, canActivate (some "Bearer t") (.ok c3GoodClaims) 0 = .accepted u ∧
        u.id = resolvedUserIdString c3GoodClaims) ∧
    ((∀ v ∈ idCandidates c3GoodClaims, jvTruthy v = false) →
      canActivate (some "Bearer t") (.ok c3GoodClaims) 0 =
        .rejected 401 "Token validation failed") :=
  c3_amended c3GoodClaims (some "Bearer t") "t" 0 none rfl (by decide) rfl rfl

/-! ### Claim C7 -/

/-- C7: an absent Authorization header or one whose scheme is not exactly
Bearer is rejected 401 with "No token provided"; a token the verifier reports
expired is rejected 401 "Token expired"; one whose signature or structure
fails verification is rejected 401 "Invalid token"; any other verification
failure is rejected 401 "Token validation failed". -/
theorem c7_guard_rejections (hdr : Option String) (v : VerifyOutcome) (nowMs : Int)
    (tok : String) :
    (hdr = none → canActivate hdr v nowMs = .rejected 401 "No token provided") ∧
    (∀ h, hdr = some h → ¬(jsSplitOnSpace h).headD "" = "Bearer" →
      canActivate hdr v nowMs = .rejected 401 "No token provided") ∧
    (extractTokenFromHeader hdr = some tok → ¬tok = "" →
      ((v = .err "TokenExpiredError" →
        canActivate hdr v nowMs = .rejected 401 "Token expired") ∧
       (v = .err "JsonWebTokenError" →
        canActivate hdr v nowMs = .rejected 401 "Invalid token") ∧
       (∀ n, v = .err n → ¬n = "TokenExpiredError" → ¬n = "JsonWebTokenError" →
        canActivate hdr v nowMs = .rejected 401 "Token validation failed"))) := by
  refine ⟨?_, ?_, ?_⟩
  · intro h
    subst h
    rfl
  · intro h hh hb
    subst hh
    rw [List.headD_eq_head?] at hb
    simp [canActivate, extractTokenFromHeader, hb]
  · intro he hne
    refine ⟨?_, ?_, ?_⟩
    · intro hv
      subst hv
      simp [canActivate, he, hne]
    · intro hv
      subst hv
      simp [canActivate, he, hne]
    · intro n hv hn1 hn2
      subst hv
      simp [canActivate, he, hne, hn1, hn2]

/-- C7 witness: an expired token under a Bearer header is rejected 401
"Token expired", and an absent header is rejected 401 "No token provided". -/
theorem c7_witness :
    canActivate (some "Bearer abc") (.err "TokenExpiredError") 0 =
      GuardResult.rejected 401 "Token expired" ∧
    canActivate none (.err "TokenExpiredError") 0 =
      GuardResult.rejected 401 "No token provided" := by
  have h := c7_guard_rejections (some "Bearer abc") (.err "TokenExpiredError") 0 "abc"
  have h2 := c7_guard_rejections none (.err "TokenExpiredError") 0 ""
  exact ⟨(h.2.2 rfl (by decide)).1 rfl, h2.1 rfl⟩

/-! ### Claim C8 -/

/-- A valid payload with a good id, a truthy createdAt claim, no iat and no
email candidate anywhere. -/
def c8Claims : Claims := { id := JVal.str "abc", createdAt := JVal.str "2020-01-01T00:00:00Z" }

/-- C8 (code bug): the claim says a valid token with a non-empty id and no
email candidates is accepted with the placeholder email user-abc@unknown, but
for this payload the createdAt expression
`decoded.createdAt || decoded.user?.createdAt || decoded.iat ? new
Date(decoded.iat * 1000).toISOString() : undefined` parses with the ternary
outermost, so with iat absent it evaluates toISOString on an invalid date;
the RangeError is caught and the guard rejects the request with 401. -/
theorem c8_bug :
    jvTruthy (Claims.email c8Claims) = false ∧
    uget c8Claims (fun u => u.email) = JVal.absent ∧
    jvTruthy (Claims.userEmail c8Claims) = false ∧
    resolvedUserIdString c8Claims = "abc" ∧
    Claims.iat c8Claims = none ∧
    computeCreatedAt c8Claims = Except.error "Invalid time value" ∧
    canActivate (some "Bearer tok2") (.ok c8Claims) 0 =
      GuardResult.rejected 401 "Token validation failed" := by decide

/-! ### Claim C1 -/

/-- C1 counterexample: forwarding POST to the auth backend where the upstream
responds 401 with body message "bad creds" does not produce the outcome
Error(UNAUTHORIZED, 401, "bad creds"): under `validateStatus: 200 <= s < 600`
the 401 response resolves the call, forwardRequest returns the body, and
routeRequest replies HTTP 200 with that body passed through. -/
theorem c1_counterexample :
    routeRespond "auth" (forwardRequest sampleUrls sampleEnv "auth" "/auth/login" "POST"
        (some {}) true (UpstreamResult.response 401 { message := some "bad creds" } none)) =
      { status := 200, body := RespBody.passthrough { message := some "bad creds" } } ∧
    routeRespond "auth" (forwardRequest sampleUrls sampleEnv "auth" "/auth/login" "POST"
        (some {}) true (UpstreamResult.response 401 { message := some "bad creds" } none)) ≠
      { status := 401, body := RespBody.errorEnvelope "UNAUTHORIZED" "bad creds" } := by decide

/-- C1 (amended): for every forwarded call to the auth backend whose upstream
responds 401, the response counts as transport success, the caller receives
HTTP 200 with the upstream body passed through unmodified, and nothing is
logged at error severity; the Error(UNAUTHORIZED, 401) classification of
routeRequest applies only to thrown errors, which an upstream 401 never
produces. -/
theorem c1_amended (urls : ServiceUrls) (env : Env) (u path method : String) (b : JBody)
    (loc : Option String) (body : Option JBody) (dt : Option Nat)
    (h1 : lookupServiceUrl urls "auth" = some u) (h2 : ¬u = "")
    (h3 : resolveDefaultTimeout env = Except.ok dt) (h4 : supportedMethod method = true) :
    routeRespond "auth"
        (forwardRequest urls env "auth" path method body true (.response 401 b loc)) =
      { status := 200, body := RespBody.passthrough b } ∧
    errorSeverityLogged
        (forwardRequest urls env "auth" path method body true (.response 401 b loc)) = false := by
  have hcfg : ∃ cfg, buildForwardConfig urls env "auth" path method body = Except.ok cfg := by
    simp [buildForwardConfig, h1, h2, h3, h4]
  obtain ⟨cfg, hcfg⟩ := hcfg
  have hfr : forwardRequest urls env "auth" path method body true (.response 401 b loc) =
      .success cfg b := by
    simp [forwardRequest, hcfg]
  rw [hfr]
  exact ⟨rfl, rfl⟩

/-- C1 witness: the amended statement at the concrete bad-credentials
scenario. -/
theorem c1_witness :
    routeRespond "auth" (forwardRequest sampleUrls sampleEnv "auth" "/auth/login" "POST"
        (some {}) true (UpstreamResult.response 401 { message := some "bad creds" } none)) =
      { status := 200, body := RespBody.passthrough { message := some "bad creds" } } ∧
    errorSeverityLogged (forwardRequest sampleUrls sampleEnv "auth" "/auth/login" "POST"
        (some {}) true (UpstreamResult.response 401 { message := some "bad creds" } none)) =
      false :=
  c1_amended sampleUrls sampleEnv "https://auth.example.com" "/auth/login" "POST"
    { message := some "bad creds" } none (some {}) (some 30000) rfl (by decide) rfl (by decide)

/-! ### Claim C4 -/

/-- A production environment configuring every backend URL but no default
timeout variable. -/
def c4Env : Env := fun k =>
  if k = "NODE_ENV" then some "production"
  else if k = "HEUREKA_SERVICE_URL" then some "http://heureka-service:3001"
  else if k = "IMPORT_SERVICE_URL" then some "http://import-service:3002"
  else if k = "SETTINGS_SERVICE_URL" then some "http://settings-service:3003"
  else if k = "AUTH_SERVICE_URL" then some "https://auth.example.com"
  else none

/-- C4 counterexample: with every backend URL configured but GATEWAY_TIMEOUT
and HTTP_TIMEOUT absent, the GatewayService constructor succeeds - the
process starts - and the missing timeout configuration surfaces lazily as a
per-request error of the forwarded call, contradicting the claim. -/
theorem c4_counterexample :
    buildServiceUrls c4Env = Except.ok sampleUrls ∧
    forwardRequest sampleUrls c4Env "heureka" "/heureka/feed" "GET" none true
        (UpstreamResult.response 200 {} none) =
      ForwardResult.configError "GATEWAY_TIMEOUT or HTTP_TIMEOUT must be configured in .env file" :=
  ⟨rfl, rfl⟩

/-- C4 (amended): absence of a backend base URL and port makes the
GatewayService constructor throw, preventing startup; absence of the default
timeout configuration does not prevent startup - it is read inside
forwardRequest and surfaces as a per-request error on every forwarded call. -/
theorem c4_amended (env : Env) (urls : ServiceUrls) (u serviceName path method : String)
    (body : Option JBody) (fl : Bool) (up : UpstreamResult)
    (h1 : cfgTruthy (env "HEUREKA_SERVICE_URL") = false)
    (h2 : cfgTruthy (env "HEUREKA_SERVICE_PORT") = false)
    (h3 : cfgTruthy (env "GATEWAY_TIMEOUT") = false)
    (h4 : cfgTruthy (env "HTTP_TIMEOUT") = false)
    (h5 : lookupServiceUrl urls serviceName = some u) (h6 : ¬u = "") :
    buildServiceUrls env = Except.error
      "Missing required environment variable: HEUREKA_SERVICE_URL or HEUREKA_SERVICE_PORT. Please set it in your .env file." ∧
    forwardRequest urls env serviceName path method body fl up =
      ForwardResult.configError "GATEWAY_TIMEOUT or HTTP_TIMEOUT must be configured in .env file" := by
  constructor
  · have hg : ∀ dev : Bool,
        getServiceUrl env dev "HEUREKA_SERVICE_URL" "HEUREKA_SERVICE_PORT" true =
          Except.error
            "Missing required environment variable: HEUREKA_SERVICE_URL or HEUREKA_SERVICE_PORT. Please set it in your .env file." := by
      intro dev
      simp [getServiceUrl, h1, h2]
    simp only [buildServiceUrls, hg]
    rfl
  · have hto : resolveDefaultTimeout env =
        Except.error "GATEWAY_TIMEOUT or HTTP_TIMEOUT must be configured in .env file" := by
      simp [resolveDefaultTimeout, h3, h4]
    have hb : buildForwardConfig urls env serviceName path method body =
        Except.error "GATEWAY_TIMEOUT or HTTP_TIMEOUT must be configured in .env file" := by
      simp [buildForwardConfig, h5, h6, hto]
    simp [forwardRequest, hb]

/-- An environment with no variable set at all. -/
def c4MissingEnv : Env := fun _ => none

/-- C4 witness: with nothing configured the constructor throws on the first
backend, and with the same environment a forwarded call to a configured
record fails per-request on the missing timeout. -/
theorem c4_witness :
    buildServiceUrls c4MissingEnv = Except.error
      "Missing required environment variable: HEUREKA_SERVICE_URL or HEUREKA_SERVICE_PORT. Please set it in your .env file." ∧
    forwardRequest sampleUrls c4MissingEnv "heureka" "/x" "GET" none true
        (UpstreamResult.response 200 {} none) =
      ForwardResult.configError "GATEWAY_TIMEOUT or HTTP_TIMEOUT must be configured in .env file" :=
  c4_amended c4MissingEnv sampleUrls "http://heureka-service:3001" "heureka" "/x" "GET" none true
    (UpstreamResult.response 200 {} none) rfl rfl rfl rfl rfl (by decide)

end HeurekaGateway
